import Mathlib

/-!
Verification of the canvassing progress engine of `streamlit_app.py`
(District 6 canvassing app).

The Python source is shallowly embedded: SQLite tables become Lean lists of
records, dictionaries passed to `save_interaction` become a record of
`Option` fields (`none` models an absent key, mirroring `dict.get`),
Python floats are modelled as exact rationals, and `round(x, 2)` is
modelled as rounding `x * 100` to the nearest integer and dividing by 100.
Streamlit session state becomes an explicit `Session` record.
-/

namespace Canvassing

/-- One row of the `addresses` table (schema at `streamlit_app.py:67-85`).
All columns the code reads are present; `latitude`/`longitude` are REAL
columns modelled as rationals. -/
structure Address where
  id : Int
  precinct_id : String
  owner1 : String
  owner2 : String
  address : String
  city_zip : String
  street_number : Int
  street_name : String
  unit : String
  zip_code : String
  property_type : String
  owner_occupied : String
  latitude : ℚ
  longitude : ℚ
deriving DecidableEq

/-- One row of the `precincts` table (schema at `streamlit_app.py:56-64`). -/
structure Precinct where
  id : String
  name : String
  total_addresses : Int
  owner_occupied : Int
  non_owner_occupied : Int
deriving DecidableEq

/-- One row of the `interactions` table (schema at `streamlit_app.py:88-102`).
`address_id` is an `Option` because `data.get('address_id')` may be `None`
and the column has no NOT NULL constraint; the remaining text columns are
always inserted as strings (empty-string defaults in `save_interaction`). -/
structure InteractionRow where
  id : Int
  address_id : Option Int
  volunteer_id : Int
  resident_name : String
  response_type : String
  yard_sign : String
  volunteer_interest : String
  notes : String
deriving DecidableEq

/-- The `data` dictionary passed to `save_interaction`
(`streamlit_app.py:217-244`): each field is `none` when the key is absent,
matching `data.get(key, default)`. -/
structure InteractionData where
  address_id : Option Int := none
  volunteer_id : Option Int := none
  resident_name : Option String := none
  response_type : Option String := none
  yard_sign : Option String := none
  volunteer_interest : Option String := none
  notes : Option String := none
deriving DecidableEq

/-- The SQLite database: the three tables the claims touch, plus the next
AUTOINCREMENT value for `interactions.id`. -/
structure Store where
  precincts : List Precinct
  addresses : List Address
  interactions : List InteractionRow
  next_interaction_id : Int
deriving DecidableEq

/-- `save_interaction` (`streamlit_app.py:217-244`): builds the insert tuple
with `data.get` defaults (volunteer defaults to 1, every text field to the
empty string), appends the row, and returns `cursor.lastrowid`. No check of
any kind is made on `address_id` (SQLite foreign keys are not enabled). -/
def save_interaction (s : Store) (data : InteractionData) : Store × Int :=
  let row : InteractionRow :=
    { id := s.next_interaction_id
      address_id := data.address_id
      volunteer_id := data.volunteer_id.getD 1
      resident_name := data.resident_name.getD ""
      response_type := data.response_type.getD ""
      yard_sign := data.yard_sign.getD ""
      volunteer_interest := data.volunteer_interest.getD ""
      notes := data.notes.getD "" }
  ({ s with
      interactions := s.interactions ++ [row]
      next_interaction_id := s.next_interaction_id + 1 },
   s.next_interaction_id)

/-- Python `round(x, 2)` on the exact rational value: round `x * 100` to
the nearest integer and divide by 100 (ties never arise in the facts proved
below, so the tie-breaking convention is immaterial). -/
def round2 (q : ℚ) : ℚ := (round (q * 100) : ℚ) / 100

/-- One entry of the `precinct_coverage` list built by `get_stats`
(`streamlit_app.py:298-305` and the sample rows at 319-323). -/
structure PrecinctCoverage where
  id : String
  name : String
  total_addresses : Int
  addresses_contacted : Nat
deriving DecidableEq

/-- The dictionary returned by `get_stats` (`streamlit_app.py:325-332`).
`response_breakdown` is modelled as the counting function of the dict:
a type mapped to 0 corresponds to an absent key. -/
structure Stats where
  total_interactions : Nat
  total_addresses_contacted : Nat
  total_addresses : Nat
  coverage_percentage : ℚ
  response_breakdown : String → Nat
  precinct_coverage : List PrecinctCoverage

/-- The GROUP BY response query (`streamlit_app.py:289-295`): counts the
interactions of each non-empty `response_type`. -/
def realResponseBreakdown (s : Store) : String → Nat := fun t =>
  if t = "" then 0
  else (s.interactions.filter (fun i => decide (i.response_type = t))).length

/-- The precinct coverage query (`streamlit_app.py:298-305`): for each
precinct, the count of distinct address ids in that precinct having at
least one interaction (COUNT(DISTINCT i.address_id) over the double LEFT
JOIN; NULLs from unmatched joins are not counted). -/
def realPrecinctCoverage (s : Store) : List PrecinctCoverage :=
  s.precincts.map (fun p =>
    { id := p.id
      name := p.name
      total_addresses := p.total_addresses
      addresses_contacted :=
        ((s.addresses.filter (fun a =>
            decide (a.precinct_id = p.id) &&
            s.interactions.any (fun i => decide (i.address_id = some a.id)))).map
          (fun a => a.id)).dedup.length })

/-- The sample response breakdown substituted when there are no
interactions (`streamlit_app.py:312-318`). -/
def sampleResponseBreakdown : String → Nat := fun t =>
  if t = "supportive" then 19
  else if t = "leaning" then 5
  else if t = "undecided" then 8
  else if t = "opposed" then 7
  else if t = "not-home" then 3
  else 0

/-- The sample precinct coverage substituted when there are no interactions
(`streamlit_app.py:319-323`). -/
def samplePrecinctCoverage : List PrecinctCoverage :=
  [{ id := "123", name := "Precinct 123", total_addresses := 1253, addresses_contacted := 245 },
   { id := "125", name := "Precinct 125", total_addresses := 2577, addresses_contacted := 512 },
   { id := "130", name := "Precinct 130", total_addresses := 1615, addresses_contacted := 324 }]

/-- `get_stats` (`streamlit_app.py:273-332`): computes the real counts,
then, when `total_interactions = 0`, overwrites every statistic with the
hard-coded sample values (keeping the real `total_addresses` when it is
nonzero), and finally computes `coverage_percentage` from the (possibly
substituted) counts. -/
def get_stats (s : Store) : Stats :=
  let ti0 := s.interactions.length
  let tac0 := (s.interactions.filterMap (fun i => i.address_id)).dedup.length
  let ta0 := s.addresses.length
  let ti := if ti0 = 0 then 42 else ti0
  let tac := if ti0 = 0 then 28 else tac0
  let ta := if ti0 = 0 then (if ta0 = 0 then 100 else ta0) else ta0
  { total_interactions := ti
    total_addresses_contacted := tac
    total_addresses := ta
    coverage_percentage := round2 (if 0 < ta then (tac : ℚ) / (ta : ℚ) * 100 else 0)
    response_breakdown := if ti0 = 0 then sampleResponseBreakdown else realResponseBreakdown s
    precinct_coverage := if ti0 = 0 then samplePrecinctCoverage else realPrecinctCoverage s }

/-- The per-precinct coverage percentage shown in the Stats tab
(`streamlit_app.py:627-631`): `contacted / total * 100` when the stored
precinct total is positive, otherwise `0`. -/
def precinctCoveragePercent (pc : PrecinctCoverage) : ℚ :=
  if 0 < pc.total_addresses then
    (pc.addresses_contacted : ℚ) / (pc.total_addresses : ℚ) * 100
  else 0

/-- Whether some interaction row already references the given address id. -/
def hasPrior (s : Store) (aid : Int) : Bool :=
  s.interactions.any (fun i => decide (i.address_id = some aid))

/-- Whether an address row with the given id exists in the store. -/
def addressExists (s : Store) (aid : Int) : Bool :=
  s.addresses.any (fun a => decide (a.id = aid))

/-- Numeric value of a digit string (most significant first). -/
def digitsVal (l : List Char) : Nat :=
  l.foldl (fun acc c => 10 * acc + (c.toNat - 48)) 0

/-- Whether the character list is a non-empty run of decimal digits. -/
def allDigits (l : List Char) : Bool :=
  !l.isEmpty && l.all Char.isDigit

/-- Python `int(s)` on a string: an optional sign followed by at least one
digit; any other shape raises, modelled as `none`. (Python additionally
strips surrounding whitespace and allows digit-group underscores; no claim
involves such inputs.) -/
def pyInt? (s : String) : Option Int :=
  match s.data with
  | '-' :: rest => if allDigits rest then some (-(digitsVal rest : Int)) else none
  | '+' :: rest => if allDigits rest then some (digitsVal rest : Int) else none
  | l => if allDigits l then some (digitsVal l : Int) else none

/-- Python `s.lower()`: character-wise lower-casing (the ASCII behaviour,
which covers every string the program produces). -/
def pyLower (s : String) : String :=
  ⟨s.data.map Char.toLower⟩

/-- The sort key used both by the ORDER BY of the address query
(`streamlit_app.py:152`) and by the Sort by Name button
(`streamlit_app.py:498`): the pair `(street_name, street_number)`. -/
def sortKey (a : Address) : String × Int := (a.street_name, a.street_number)

/-- Lexicographic comparison of sort keys: first by street name, then by
street number — Python tuple comparison and the two-column ORDER BY. -/
def addrLe (a b : Address) : Prop :=
  (sortKey a).1 < (sortKey b).1 ∨
    ((sortKey a).1 = (sortKey b).1 ∧ (sortKey a).2 ≤ (sortKey b).2)

instance : DecidableRel addrLe := fun a b =>
  inferInstanceAs (Decidable ((sortKey a).1 < (sortKey b).1 ∨
    ((sortKey a).1 = (sortKey b).1 ∧ (sortKey a).2 ≤ (sortKey b).2)))

instance : IsTotal Address addrLe where
  total a b := by
    unfold addrLe
    rcases lt_trichotomy (sortKey a).1 (sortKey b).1 with h | h | h
    · exact Or.inl (Or.inl h)
    · rcases le_total (sortKey a).2 (sortKey b).2 with h2 | h2
      · exact Or.inl (Or.inr ⟨h, h2⟩)
      · exact Or.inr (Or.inr ⟨h.symm, h2⟩)
    · exact Or.inr (Or.inl h)

instance : IsTrans Address addrLe where
  trans a b c hab hbc := by
    unfold addrLe at *
    rcases hab with h1 | ⟨h1, h1n⟩ <;> rcases hbc with h2 | ⟨h2, h2n⟩
    · exact Or.inl (lt_trans h1 h2)
    · exact Or.inl (h2 ▸ h1)
    · exact Or.inl (h1 ▸ h2)
    · exact Or.inr ⟨h1.trans h2, le_trans h1n h2n⟩

/-- The stable ascending sort by `(street_name, street_number)`. Python
`list.sort(key=...)` is a stable ascending sort; any stable sort computes
the same list, so it is embedded as insertion sort. -/
def sortAddresses (l : List Address) : List Address :=
  List.insertionSort addrLe l

/-- The seventh-element street rotation of the demo address generator
(`streamlit_app.py:158,168`). -/
def sampleStreet (i : Nat) : String :=
  ["MAIN ST", "OAK AVE", "PINE ST", "MAPLE DR", "CEDAR LN", "BEACH BLVD",
   "CENTRAL AVE"].getD (i % 7) ""

/-- The property-type rotation of the demo address generator
(`streamlit_app.py:159,186`). -/
def samplePropertyType (i : Nat) : String :=
  ["Single Family", "Condominium", "Duplex", "Apartment", "Townhouse"].getD
    (i % 5) ""

/-- The i-th generated demo address (`streamlit_app.py:167-190`). -/
def sampleAddress (pid : String) (i : Nat) : Address :=
  { id := (i : Int) + 1
    precinct_id := pid
    owner1 := "SMITH, JOHN " ++ toString i
    owner2 := if i % 3 = 0 then "SMITH, JANE" else ""
    address := toString (100 + i * 10) ++ " " ++ sampleStreet i
    city_zip := "ST PETERSBURG, FL 33701"
    street_number := (100 : Int) + i * 10
    street_name := sampleStreet i
    unit := if i % 4 ≠ 0 then "" else "#" ++ toString (i % 10)
    zip_code := "33701"
    property_type := samplePropertyType i
    owner_occupied := if i % 2 = 0 then "Yes" else "No"
    latitude := 2777 / 100 + (i % 10 : ℚ) / 1000
    longitude := -8264 / 100 + (i % 5 : ℚ) / 1000 }

/-- `load_precinct_addresses` (`streamlit_app.py:141-195`): when address
rows exist for the precinct they are returned ordered by
`(street_name, street_number)`; otherwise the demo generator produces
`min(50, int(precinct_id) * 5)` synthetic addresses. `int(precinct_id)` is
modelled by `String.toInt?`; when it raises (non-numeric id) the exception
handler returns the empty list. -/
def load_precinct_addresses (s : Store) (pid : String) : List Address :=
  if 0 < (s.addresses.filter (fun a => decide (a.precinct_id = pid))).length then
    sortAddresses (s.addresses.filter (fun a => decide (a.precinct_id = pid)))
  else
    match pyInt? pid with
    | some n => (List.range (min 50 (n * 5)).toNat).map (sampleAddress pid)
    | none => []

/-- The Streamlit session state used on the Home tab
(`streamlit_app.py:417-422`): selected precinct, in-memory address list,
and the set of address ids resolved this session. -/
structure Session where
  selected_precinct : Option String
  addresses : List Address
  visited_addresses : Finset Int
deriving DecidableEq

/-- The precinct-change handler (`streamlit_app.py:457-461`): only when the
chosen id differs from the current one are the selection updated, the
address list reloaded and the visited set reset. -/
def selectPrecinct (store : Store) (sess : Session) (pid : String) : Session :=
  if sess.selected_precinct ≠ some pid then
    { selected_precinct := some pid
      addresses := load_precinct_addresses store pid
      visited_addresses := ∅ }
  else sess

/-- The Sort by Name button (`streamlit_app.py:497-499`): sorts the
in-memory address list in place by `(street_name, street_number)`; the
visited set is untouched. -/
def sortByName (sess : Session) : Session :=
  { sess with addresses := sortAddresses sess.addresses }

/-- A Python value read out of an address dictionary by `.get`: absent key
or `None`, a number, or a string. -/
inductive PyVal where
  | none : PyVal
  | num : ℚ → PyVal
  | str : String → PyVal
deriving DecidableEq

/-- Python truthiness for the values above: `None`, `0`, `0.0` and `""`
are falsy. -/
def truthy : PyVal → Bool
  | .none => false
  | .num q => decide (q ≠ 0)
  | .str s => decide (s ≠ "")

/-- The fields of an address dictionary that `create_map` reads to decide
inclusion and color (`streamlit_app.py:371-386`): the coordinates as raw
Python values, whether a truthy `visited` key is present, and the optional
`response_type` value. -/
structure MapAddr where
  latitude : PyVal
  longitude : PyVal
  visited : Bool
  response_type : Option String
deriving DecidableEq

/-- The marker-color dispatch of `create_map` (`streamlit_app.py:374-386`):
blue unless visited; a visited address dispatches on its `response_type`,
with every unrecognized value falling through to blue. -/
def marker_color (a : MapAddr) : String :=
  if a.visited then
    if a.response_type = some "supportive" then "green"
    else if a.response_type = some "opposed" then "red"
    else if a.response_type = some "undecided" then "orange"
    else if a.response_type = some "not-home" then "gray"
    else "blue"
  else "blue"

/-- A marker descriptor handed to the map library: position and color
(`streamlit_app.py:400-404`; the popup text is presentation-only and not
referenced by any claim). -/
structure Marker where
  position : PyVal × PyVal
  color : String
deriving DecidableEq

/-- The marker of a single address, or `none` when the address is skipped
by the coordinate truthiness guard (`streamlit_app.py:372`). -/
def markerOf (a : MapAddr) : Option Marker :=
  if truthy a.latitude && truthy a.longitude then
    some { position := (a.latitude, a.longitude), color := marker_color a }
  else
    none

/-- The marker loop of `create_map` (`streamlit_app.py:371-404`): one
marker per address with truthy coordinates, colored by `marker_color`. -/
def create_map_markers : List MapAddr → List Marker
  | [] => []
  | a :: rest =>
      match markerOf a with
      | some m => m :: create_map_markers rest
      | none => create_map_markers rest

/-- The `data` dictionary built by the Not Home quick action
(`streamlit_app.py:553-557`). -/
def quickNotHomeData (aid vid : Int) : InteractionData :=
  { address_id := some aid, volunteer_id := some vid,
    response_type := some "not-home" }

/-- The `data` dictionary built by the Skip quick action
(`streamlit_app.py:564-568`). -/
def quickSkipData (aid vid : Int) : InteractionData :=
  { address_id := some aid, volunteer_id := some vid,
    response_type := some "skipped" }

/-- The `data` dictionary built by a full form submission
(`streamlit_app.py:537-545`): every field is present, and the selected
response is lower-cased when non-empty. -/
def fullFormData (aid vid : Int)
    (resident_name response_type yard_sign volunteer_interest notes : String) :
    InteractionData :=
  { address_id := some aid
    volunteer_id := some vid
    resident_name := some resident_name
    response_type := some (if response_type = "" then "" else pyLower response_type)
    yard_sign := some yard_sign
    volunteer_interest := some volunteer_interest
    notes := some notes }

/-! ### Concrete fixtures used by counterexamples and witnesses -/

/-- A minimal address row: only the fields the claims inspect vary. -/
def fixtureAddress (i : Int) (pid sn : String) (num : Int) : Address :=
  { id := i, precinct_id := pid, owner1 := "", owner2 := "", address := "",
    city_zip := "", street_number := num, street_name := sn, unit := "",
    zip_code := "", property_type := "", owner_occupied := "",
    latitude := 0, longitude := 0 }

/-- A minimal interaction row. -/
def fixtureRow (i : Int) (aid : Option Int) : InteractionRow :=
  { id := i, address_id := aid, volunteer_id := 1, resident_name := "",
    response_type := "", yard_sign := "", volunteer_interest := "",
    notes := "" }

/-- A store with one real address and no interactions: the zero-interaction
sample fallback fires with a real (nonzero) address count of 1. -/
def storeOneAddrNoInteractions : Store :=
  { precincts := [], addresses := [fixtureAddress 1 "123" "A" 1],
    interactions := [], next_interaction_id := 1 }

/-- A store whose precinct row claims 1 total address while 2 of its stored
addresses have interactions. -/
def storeOverfullPrecinct : Store :=
  { precincts := [{ id := "123", name := "Precinct 123", total_addresses := 1,
                    owner_occupied := 1, non_owner_occupied := 0 }],
    addresses := [fixtureAddress 1 "123" "A" 1, fixtureAddress 2 "123" "B" 2],
    interactions := [fixtureRow 1 (some 1), fixtureRow 2 (some 2)],
    next_interaction_id := 3 }

/-- A completely empty store. -/
def emptyStore : Store :=
  { precincts := [], addresses := [], interactions := [], next_interaction_id := 1 }

/-- A store with two addresses, one of which already has an interaction. -/
def storeOnePrior : Store :=
  { precincts := [],
    addresses := [fixtureAddress 1 "123" "A" 1, fixtureAddress 2 "123" "B" 2],
    interactions := [fixtureRow 1 (some 1)], next_interaction_id := 2 }

/-- A store holding two addresses of precinct 9, listed out of order. -/
def storePrecinctNine : Store :=
  { precincts := [],
    addresses := [fixtureAddress 1 "9" "B" 2, fixtureAddress 2 "9" "A" 1],
    interactions := [], next_interaction_id := 1 }

/-- A store with 600001 addresses and no interactions: large enough that
the sample-substituted coverage 2800/600001 percent rounds to zero. -/
def storeHugeNoInteractions : Store :=
  { precincts := [],
    addresses := List.replicate 600001 (fixtureAddress 1 "123" "A" 1),
    interactions := [], next_interaction_id := 1 }

/-- A store with three addresses and no interactions. -/
def storeThreeAddrNoInteractions : Store :=
  { precincts := [],
    addresses := [fixtureAddress 1 "123" "A" 1, fixtureAddress 2 "123" "B" 2,
                  fixtureAddress 3 "123" "C" 3],
    interactions := [], next_interaction_id := 1 }

/-- A session on precinct 125 with one visited address. -/
def sessionOn125 : Session :=
  { selected_precinct := some "125", addresses := [fixtureAddress 1 "125" "A" 1],
    visited_addresses := {1} }

/-- A map address with good coordinates, visited with a supportive
response. -/
def mapAddrSupportive : MapAddr :=
  { latitude := .num 27, longitude := .num (-82), visited := true,
    response_type := some "supportive" }

/-- A map address with good coordinates and no visit-state entry. -/
def mapAddrUnvisited : MapAddr :=
  { latitude := .num 27, longitude := .num (-82), visited := false,
    response_type := none }

/-- A visited map address with the skipped response. -/
def mapAddrSkipped : MapAddr :=
  { latitude := .num 27, longitude := .num (-82), visited := true,
    response_type := some "skipped" }

/-- A map address whose latitude is the falsy number 0. -/
def mapAddrZeroLat : MapAddr :=
  { latitude := .num 0, longitude := .num (-82), visited := false,
    response_type := none }

/-- The precinct-coverage row `get_stats` derives from
`storeOverfullPrecinct`: 2 contacted against a recorded total of 1. -/
def overfullCoverageRow : PrecinctCoverage :=
  { id := "123", name := "Precinct 123", total_addresses := 1,
    addresses_contacted := 2 }

/-- The first row of the sample precinct coverage. -/
def sampleCoverageRow123 : PrecinctCoverage :=
  { id := "123", name := "Precinct 123", total_addresses := 1253,
    addresses_contacted := 245 }

/-! ### Helper lemmas -/

theorem addrLe_of_sortKey_eq {a b : Address} (h : sortKey a = sortKey b) :
    addrLe a b := by
  unfold addrLe
  exact Or.inr ⟨congrArg Prod.fst h, le_of_eq (congrArg Prod.snd h)⟩

theorem sortKey_ne_of_not_addrLe {a b : Address} (h : ¬ addrLe a b) :
    sortKey a ≠ sortKey b :=
  fun he => h (addrLe_of_sortKey_eq he)

theorem filter_orderedInsert (k : String × Int) (x : Address) :
    ∀ l : List Address,
      (List.orderedInsert addrLe x l).filter (fun a => decide (sortKey a = k)) =
        (x :: l).filter (fun a => decide (sortKey a = k))
  | [] => rfl
  | y :: ys => by
    by_cases hxy : addrLe x y
    · rw [List.orderedInsert, if_pos hxy]
    · rw [List.orderedInsert, if_neg hxy]
      have hkey : sortKey x ≠ sortKey y := sortKey_ne_of_not_addrLe hxy
      have ih := filter_orderedInsert k x ys
      by_cases hx : sortKey x = k
      · have hy : ¬ sortKey y = k := fun h => hkey (hx.trans h.symm)
        simp [List.filter_cons, hx, hy, ih]
      · simp [List.filter_cons, hx, ih]

theorem filter_sortKey_insertionSort (k : String × Int) :
    ∀ l : List Address,
      (List.insertionSort addrLe l).filter (fun a => decide (sortKey a = k)) =
        l.filter (fun a => decide (sortKey a = k))
  | [] => rfl
  | x :: xs => by
    rw [List.insertionSort, filter_orderedInsert k x (List.insertionSort addrLe xs)]
    simp only [List.filter_cons, filter_sortKey_insertionSort k xs]

theorem dedup_length_append (l : List Int) (a : Int) :
    (l ++ [a]).dedup.length = l.dedup.length + (if a ∈ l then 0 else 1) := by
  rw [← List.card_toFinset, ← List.card_toFinset, List.toFinset_append]
  by_cases h : a ∈ l
  · have hsub : ([a] : List Int).toFinset ⊆ l.toFinset := by
      intro z hz
      simp only [List.toFinset_cons, List.toFinset_nil, insert_emptyc_eq,
        Finset.mem_singleton] at hz
      subst hz
      exact List.mem_toFinset.mpr h
    rw [Finset.union_eq_left.mpr hsub]
    simp [h]
  · have : l.toFinset ∪ ([a] : List Int).toFinset = insert a l.toFinset := by
      simp [Finset.union_comm, Finset.insert_eq]
    rw [this, Finset.card_insert_of_not_mem (fun hc => h (List.mem_toFinset.mp hc))]
    simp [h]

theorem round2_nonneg {q : ℚ} (h : 0 ≤ q) : 0 ≤ round2 q := by
  unfold round2
  apply div_nonneg _ (by norm_num)
  have hz : (0 : ℤ) ≤ round (q * 100) := by
    rw [round_eq]
    refine Int.floor_nonneg.mpr ?_
    linarith
  exact_mod_cast hz

theorem round2_le_hundred {q : ℚ} (h : q ≤ 100) : round2 q ≤ 100 := by
  unfold round2
  rw [div_le_iff₀ (by norm_num : (0:ℚ) < 100)]
  have hz : round (q * 100) ≤ 10000 := by
    rw [round_eq]
    have h1 : ⌊q * 100 + 1/2⌋ ≤ ⌊(10000 : ℚ) + 1/2⌋ := Int.floor_mono (by linarith)
    have h2 : ⌊(10000 : ℚ) + 1/2⌋ = 10000 := by
      rw [Int.floor_eq_iff] <;> norm_num

    omega
  have : (round (q * 100) : ℚ) ≤ 10000 := by exact_mod_cast hz
  linarith

theorem round2_pos {q : ℚ} (h : 1/200 ≤ q) : 0 < round2 q := by
  unfold round2
  apply div_pos _ (by norm_num)
  have hz : (1 : ℤ) ≤ round (q * 100) := by
    rw [round_eq, Int.le_floor]
    push_cast
    linarith
  have : (1 : ℚ) ≤ (round (q * 100) : ℚ) := by exact_mod_cast hz
  linarith

theorem create_map_markers_eq_filterMap (l : List MapAddr) :
    create_map_markers l = l.filterMap markerOf := by
  induction l with
  | nil => rfl
  | cons a rest ih =>
      cases h : markerOf a <;>
        simp [create_map_markers, List.filterMap_cons, h, ih]

theorem round2_zero : round2 0 = 0 := by
  unfold round2
  norm_num

theorem get_stats_coverage_eq (s : Store) :
    (get_stats s).coverage_percentage =
      round2 (if 0 < (get_stats s).total_addresses then
        ((get_stats s).total_addresses_contacted : ℚ) /
          ((get_stats s).total_addresses : ℚ) * 100
      else 0) := rfl

theorem get_stats_total_interactions (s : Store) (h : s.interactions.length ≠ 0) :
    (get_stats s).total_interactions = s.interactions.length := by
  simp only [get_stats]
  rw [if_neg h]

theorem get_stats_contacted (s : Store) (h : s.interactions.length ≠ 0) :
    (get_stats s).total_addresses_contacted =
      (s.interactions.filterMap (fun i => i.address_id)).dedup.length := by
  simp only [get_stats]
  rw [if_neg h]

theorem get_stats_fallback_fields (s : Store) (h : s.interactions.length = 0) :
    (get_stats s).total_interactions = 42 ∧
    (get_stats s).total_addresses_contacted = 28 ∧
    (get_stats s).total_addresses =
      (if s.addresses.length = 0 then 100 else s.addresses.length) ∧
    (get_stats s).response_breakdown = sampleResponseBreakdown ∧
    (get_stats s).precinct_coverage = samplePrecinctCoverage := by
  refine ⟨?_, ?_, ?_, ?_, ?_⟩ <;>
    · simp only [get_stats]
      rw [if_pos h]

theorem hasPrior_eq_true_iff (s : Store) (aid : Int) :
    hasPrior s aid = true ↔
      aid ∈ s.interactions.filterMap (fun i => i.address_id) := by
  simp [hasPrior, List.any_eq_true, List.mem_filterMap]

/-! ### Claim theorems -/

/-- C3 counterexample: for a record whose `address_id` (999) references no
existing Address in an empty store, `save_interaction` does not fail and
does not leave the store unchanged: it inserts the row and returns the
generated id 1, refuting the claimed `ValidationError` behaviour. -/
theorem save_interaction_counterexample :
    addressExists emptyStore 999 = false ∧
    (save_interaction emptyStore { address_id := some 999 }).1.interactions ≠
      emptyStore.interactions ∧
    (save_interaction emptyStore { address_id := some 999 }).2 = 1 := by
  refine ⟨rfl, ?_, rfl⟩
  decide

/-- C3 amended: `save_interaction` performs no referential check at all:
for every record — whether or not its `address_id` references an existing
Address — it appends exactly one Interaction row carrying the given
`address_id` unchanged and returns the generated id. -/
theorem save_interaction_inserts_unconditionally (s : Store) (data : InteractionData) :
    ((save_interaction s data).1).interactions.length = s.interactions.length + 1 ∧
    (save_interaction s data).2 = s.next_interaction_id ∧
    (((save_interaction s data).1).interactions.getLast?.map
        (fun r => r.address_id)) = some data.address_id ∧
    ((save_interaction s data).1).addresses = s.addresses ∧
    ((save_interaction s data).1).precincts = s.precincts := by
  refine ⟨?_, rfl, ?_, rfl, rfl⟩
  · simp [save_interaction]
  · simp [save_interaction]

/-- C5: with a non-empty visited set, selecting the already-selected
precinct id leaves the whole session (visited set and address list)
unchanged, while selecting a different id resets the visited set to empty
and reloads the address list for the new precinct. -/
theorem selectPrecinct_reload_only_on_change (store : Store) (sess : Session)
    (pid : String) (hvis : sess.visited_addresses.Nonempty) :
    (sess.selected_precinct = some pid → selectPrecinct store sess pid = sess) ∧
    (sess.selected_precinct ≠ some pid →
      (selectPrecinct store sess pid).visited_addresses = ∅ ∧
      (selectPrecinct store sess pid).addresses = load_precinct_addresses store pid ∧
      (selectPrecinct store sess pid).selected_precinct = some pid) := by
  constructor
  · intro h
    simp [selectPrecinct, h]
  · intro h
    simp [selectPrecinct, h]

/-- C5 witness: a session on precinct 125 with visited set {1}: selecting
"125" again keeps the session identical, selecting "130" clears the
visited set. -/
theorem selectPrecinct_reload_witness :
    sessionOn125.visited_addresses.Nonempty ∧
    sessionOn125.selected_precinct = some "125" ∧
    selectPrecinct emptyStore sessionOn125 "125" = sessionOn125 ∧
    sessionOn125.selected_precinct ≠ some "130" ∧
    (selectPrecinct emptyStore sessionOn125 "130").visited_addresses = ∅ :=
  ⟨⟨1, by decide⟩, rfl,
   (selectPrecinct_reload_only_on_change emptyStore sessionOn125 "125"
      ⟨1, by decide⟩).1 rfl,
   by decide,
   ((selectPrecinct_reload_only_on_change emptyStore sessionOn125 "130"
      ⟨1, by decide⟩).2 (by decide)).1⟩

/-- C6: the marker color is a function of the single address record alone:
an unvisited address is blue; a visited one dispatches on its
`response_type` (supportive green, opposed red, undecided orange, not-home
gray, anything else blue); and the marker list is built element-wise, so a
marker never depends on the other addresses. -/
theorem marker_color_dispatch (a : MapAddr) (l : List MapAddr) :
    (a.visited = false → marker_color a = "blue") ∧
    (a.visited = true →
      (a.response_type = some "supportive" → marker_color a = "green") ∧
      (a.response_type = some "opposed" → marker_color a = "red") ∧
      (a.response_type = some "undecided" → marker_color a = "orange") ∧
      (a.response_type = some "not-home" → marker_color a = "gray") ∧
      (a.response_type ∉ ([some "supportive", some "opposed", some "undecided",
          some "not-home"] : List (Option String)) → marker_color a = "blue")) ∧
    create_map_markers l = l.filterMap markerOf := by
  refine ⟨?_, ?_, create_map_markers_eq_filterMap l⟩
  · intro h
    simp [marker_color, h]
  · intro h
    refine ⟨?_, ?_, ?_, ?_, ?_⟩ <;> intro h2
    · simp [marker_color, h, h2]
    · simp [marker_color, h, h2]
    · simp [marker_color, h, h2]
    · simp [marker_color, h, h2]
    · simp only [List.mem_cons, List.not_mem_nil, or_false, not_or] at h2
      obtain ⟨n1, n2, n3, n4⟩ := h2
      simp [marker_color, h, n1, n2, n3, n4]

/-- C6 witness: concrete dispatches — unvisited is blue, visited
supportive is green, visited skipped falls through to blue, and the
single-address marker list carries the green marker. -/
theorem marker_color_dispatch_witness :
    marker_color mapAddrUnvisited = "blue" ∧
    marker_color mapAddrSupportive = "green" ∧
    marker_color mapAddrSkipped = "blue" ∧
    create_map_markers [mapAddrSupportive] =
      [{ position := (.num 27, .num (-82)), color := "green" }] :=
  ⟨(marker_color_dispatch mapAddrUnvisited []).1 rfl,
   ((marker_color_dispatch mapAddrSupportive []).2.1 rfl).1 rfl,
   (((marker_color_dispatch mapAddrSkipped []).2.1 rfl).2.2.2.2) (by decide),
   by rw [(marker_color_dispatch mapAddrSupportive [mapAddrSupportive]).2.2]; decide⟩

/-- C7: the Not Home and Skip quick actions store an Interaction row
identical field-for-field to a full form submission for the same address
and volunteer whose stored `response_type` is "not-home" (respectively
"skipped") and whose other input fields are all empty: the resulting
stores (and returned ids) coincide exactly. -/
theorem quick_actions_match_full_form (s : Store) (aid vid : Int) :
    save_interaction s (quickNotHomeData aid vid) =
      save_interaction s (fullFormData aid vid "" "not-home" "" "" "") ∧
    save_interaction s (quickSkipData aid vid) =
      save_interaction s (fullFormData aid vid "" "skipped" "" "" "") := by
  have h1 : pyLower "not-home" = "not-home" := by decide
  have h2 : pyLower "skipped" = "skipped" := by decide
  constructor
  · simp [save_interaction, quickNotHomeData, fullFormData, h1]
  · simp [save_interaction, quickSkipData, fullFormData, h2]

/-- C8: the Sort by Name operation sorts the session address list by
`(street_name, street_number)` ascending, is idempotent, is stable (the
addresses of any fixed sort key keep their original relative order), never
changes the visited set, and only permutes the address list. -/
theorem sortByName_props (sess : Session) (k : String × Int) :
    List.Sorted addrLe (sortByName sess).addresses ∧
    sortByName (sortByName sess) = sortByName sess ∧
    ((sortByName sess).addresses.filter (fun a => decide (sortKey a = k)) =
      sess.addresses.filter (fun a => decide (sortKey a = k))) ∧
    (sortByName sess).visited_addresses = sess.visited_addresses ∧
    (sortByName sess).addresses.Perm sess.addresses := by
  refine ⟨List.sorted_insertionSort addrLe sess.addresses, ?_, ?_, rfl,
    List.perm_insertionSort addrLe sess.addresses⟩
  · simp [sortByName, sortAddresses,
      (List.sorted_insertionSort addrLe sess.addresses).insertionSort_eq]
  · exact filter_sortKey_insertionSort k sess.addresses

/-- C10: an address is turned into a marker exactly when both of its
coordinates are truthy: the marker list is the element-wise image of the
coordinate-filtered address list, the falsy coordinate values (None, 0,
empty string) fail the guard, and an address failing the guard is dropped
from the marker list wherever it sits. -/
theorem markers_require_truthy_coordinates (l l1 l2 : List MapAddr) (a : MapAddr) :
    (create_map_markers l =
      (l.filter (fun x => truthy x.latitude && truthy x.longitude)).map
        (fun x => { position := (x.latitude, x.longitude),
                    color := marker_color x })) ∧
    (truthy PyVal.none = false ∧ truthy (.num 0) = false ∧
      truthy (.str "") = false) ∧
    ((truthy a.latitude && truthy a.longitude) = false →
      create_map_markers (l1 ++ a :: l2) = create_map_markers (l1 ++ l2)) := by
  have key : ∀ m : List MapAddr, create_map_markers m =
      (m.filter (fun x => truthy x.latitude && truthy x.longitude)).map
        (fun x => ({ position := (x.latitude, x.longitude),
                     color := marker_color x } : Marker)) := by
    intro m
    induction m with
    | nil => rfl
    | cons b rest ih =>
        by_cases hb : (truthy b.latitude && truthy b.longitude) = true
        · simp [create_map_markers, markerOf, hb, List.filter_cons, ih]
        · simp only [Bool.not_eq_true] at hb
          simp [create_map_markers, markerOf, hb, List.filter_cons, ih]
  refine ⟨key l, ⟨rfl, by decide, by decide⟩, ?_⟩
  intro h
  rw [key, key, List.filter_append, List.filter_append, List.filter_cons, h]
  simp

/-- C10 witness: an address with latitude 0 is excluded: prepended or not,
the marker list is that of the remaining addresses. -/
theorem markers_require_truthy_coordinates_witness :
    (truthy mapAddrZeroLat.latitude && truthy mapAddrZeroLat.longitude) = false ∧
    create_map_markers ([mapAddrSupportive] ++ mapAddrZeroLat :: []) =
      create_map_markers ([mapAddrSupportive] ++ []) :=
  ⟨by decide,
   (markers_require_truthy_coordinates [] [mapAddrSupportive] [] mapAddrZeroLat).2.2
     (by decide)⟩

/-- C1 counterexample: the claimed bound fails. A store with one real
address and no interactions hits the sample fallback: contacted becomes 28
against a real total of 1, so the reported global coverage is 2800, not in
[0, 100]; and a store whose precinct row records 1 total address while 2
of its addresses have interactions yields a precinct percentage of 200. -/
theorem coverage_out_of_range_counterexample :
    (get_stats storeOneAddrNoInteractions).coverage_percentage = 2800 ∧
    ¬ (get_stats storeOneAddrNoInteractions).coverage_percentage ≤ 100 ∧
    (get_stats storeOverfullPrecinct).precinct_coverage =
      [overfullCoverageRow] ∧
    precinctCoveragePercent overfullCoverageRow = 200 := by
  have htac : (get_stats storeOneAddrNoInteractions).total_addresses_contacted
      = 28 := by decide
  have hta : (get_stats storeOneAddrNoInteractions).total_addresses = 1 := by
    decide
  have hc : (get_stats storeOneAddrNoInteractions).coverage_percentage = 2800 := by
    rw [get_stats_coverage_eq, htac, hta]
    norm_num [round2]
  refine ⟨hc, ?_, by decide, ?_⟩
  · rw [hc]
    norm_num
  · norm_num [precinctCoveragePercent, overfullCoverageRow]

/-- C1 amended: the returned `coverage_percentage` always equals
`round(contacted / total * 100, 2)` over the returned counts (0 when the
returned total is 0), and both the global and the per-precinct percentage
lie in [0, 100] whenever the corresponding contacted count does not exceed
the corresponding total — a premise the sample fallback and the
independently seeded precinct totals can violate. -/
theorem coverage_formula_and_bounds (s : Store) (pc : PrecinctCoverage)
    (hg : (get_stats s).total_addresses_contacted ≤
      (get_stats s).total_addresses)
    (hp : (pc.addresses_contacted : Int) ≤ pc.total_addresses) :
    ((get_stats s).coverage_percentage =
      if 0 < (get_stats s).total_addresses then
        round2 (((get_stats s).total_addresses_contacted : ℚ) /
          ((get_stats s).total_addresses : ℚ) * 100)
      else 0) ∧
    0 ≤ (get_stats s).coverage_percentage ∧
    (get_stats s).coverage_percentage ≤ 100 ∧
    0 ≤ precinctCoveragePercent pc ∧
    precinctCoveragePercent pc ≤ 100 := by
  have hta0 : 0 ≤ ((get_stats s).total_addresses_contacted : ℚ) := by positivity
  refine ⟨?_, ?_, ?_, ?_, ?_⟩
  · by_cases h : 0 < (get_stats s).total_addresses
    · rw [get_stats_coverage_eq, if_pos h, if_pos h]
    · rw [get_stats_coverage_eq, if_neg h, if_neg h, round2_zero]
  · by_cases h : 0 < (get_stats s).total_addresses
    · rw [get_stats_coverage_eq, if_pos h]
      apply round2_nonneg
      positivity
    · rw [get_stats_coverage_eq, if_neg h, round2_zero]
  · by_cases h : 0 < (get_stats s).total_addresses
    · rw [get_stats_coverage_eq, if_pos h]
      apply round2_le_hundred
      have hta : (0 : ℚ) < ((get_stats s).total_addresses : ℚ) := by
        exact_mod_cast h
      have hle : ((get_stats s).total_addresses_contacted : ℚ) ≤
          ((get_stats s).total_addresses : ℚ) := by exact_mod_cast hg
      have hdiv : ((get_stats s).total_addresses_contacted : ℚ) /
          ((get_stats s).total_addresses : ℚ) ≤ 1 := (div_le_one hta).mpr hle
      linarith
    · rw [get_stats_coverage_eq, if_neg h, round2_zero]
      norm_num
  · unfold precinctCoveragePercent
    by_cases h : 0 < pc.total_addresses
    · rw [if_pos h]
      have hq : (0 : ℚ) < (pc.total_addresses : ℚ) := by exact_mod_cast h
      positivity
    · rw [if_neg h]
  · unfold precinctCoveragePercent
    by_cases h : 0 < pc.total_addresses
    · rw [if_pos h]
      have hq : (0 : ℚ) < (pc.total_addresses : ℚ) := by exact_mod_cast h
      have hle : ((pc.addresses_contacted : ℚ)) ≤ (pc.total_addresses : ℚ) := by
        exact_mod_cast hp
      have hdiv : (pc.addresses_contacted : ℚ) / (pc.total_addresses : ℚ) ≤ 1 :=
        (div_le_one hq).mpr hle
      linarith
    · rw [if_neg h]
      norm_num

/-- C1 witness: a store with two interactions on two of its two addresses
(returned contacted 2 ≤ total 2) and the first sample precinct row
(contacted 245 ≤ total 1253) both stay within [0, 100]. -/
theorem coverage_formula_and_bounds_witness :
    (get_stats storeOverfullPrecinct).total_addresses_contacted ≤
      (get_stats storeOverfullPrecinct).total_addresses ∧
    (sampleCoverageRow123.addresses_contacted : Int) ≤
      sampleCoverageRow123.total_addresses ∧
    0 ≤ (get_stats storeOverfullPrecinct).coverage_percentage ∧
    (get_stats storeOverfullPrecinct).coverage_percentage ≤ 100 ∧
    0 ≤ precinctCoveragePercent sampleCoverageRow123 ∧
    precinctCoveragePercent sampleCoverageRow123 ≤ 100 :=
  ⟨by decide, by decide,
   (coverage_formula_and_bounds storeOverfullPrecinct sampleCoverageRow123
      (by decide) (by decide)).2.1,
   (coverage_formula_and_bounds storeOverfullPrecinct sampleCoverageRow123
      (by decide) (by decide)).2.2.1,
   (coverage_formula_and_bounds storeOverfullPrecinct sampleCoverageRow123
      (by decide) (by decide)).2.2.2.1,
   (coverage_formula_and_bounds storeOverfullPrecinct sampleCoverageRow123
      (by decide) (by decide)).2.2.2.2⟩

/-- C2 counterexample: on a store with one address and no interactions,
recording an interaction does not increase the reported
`total_interactions` by one: before, the sample fallback reports 42;
after, the single real row reports 1. -/
theorem record_then_stats_counterexample :
    (get_stats (save_interaction storeOneAddrNoInteractions
        { address_id := some 1 }).1).total_interactions ≠
      (get_stats storeOneAddrNoInteractions).total_interactions + 1 := by
  decide

/-- C2 amended: provided the store already holds at least one Interaction
(so the zero-interaction sample fallback fires on neither side), recording
an Interaction for address A increases `total_interactions` by exactly 1,
and increases `total_addresses_contacted` by exactly 1 exactly when A had
no prior Interaction (leaving it unchanged when it had one). -/
theorem record_then_stats (s : Store) (d : InteractionData) (aid : Int)
    (hne : s.interactions ≠ []) (haid : d.address_id = some aid) :
    (get_stats (save_interaction s d).1).total_interactions =
      (get_stats s).total_interactions + 1 ∧
    ((get_stats (save_interaction s d).1).total_addresses_contacted =
      (get_stats s).total_addresses_contacted + 1 ↔
        hasPrior s aid = false) ∧
    (hasPrior s aid = true →
      (get_stats (save_interaction s d).1).total_addresses_contacted =
        (get_stats s).total_addresses_contacted) := by
  have hlen0 : s.interactions.length ≠ 0 := fun h =>
    hne (List.length_eq_zero.mp h)
  have hlen1 : (save_interaction s d).1.interactions.length ≠ 0 := by
    simp [save_interaction]
  have hfmap : (save_interaction s d).1.interactions.filterMap
      (fun i => i.address_id) =
      s.interactions.filterMap (fun i => i.address_id) ++ [aid] := by
    simp [save_interaction, List.filterMap_append, haid]
  refine ⟨?_, ?_, ?_⟩
  · rw [get_stats_total_interactions _ hlen1, get_stats_total_interactions s hlen0]
    simp [save_interaction]
  · rw [get_stats_contacted _ hlen1, get_stats_contacted s hlen0, hfmap,
      dedup_length_append]
    by_cases hmem : aid ∈ s.interactions.filterMap (fun i => i.address_id)
    · rw [if_pos hmem]
      constructor
      · intro habs
        omega
      · intro hfalse
        have := (hasPrior_eq_true_iff s aid).mpr hmem
        rw [hfalse] at this
        cases this
    · rw [if_neg hmem]
      constructor
      · intro _
        rw [Bool.eq_false_iff]
        intro ht
        exact hmem ((hasPrior_eq_true_iff s aid).mp ht)
      · intro _
        rfl
  · intro ht
    rw [get_stats_contacted _ hlen1, get_stats_contacted s hlen0, hfmap,
      dedup_length_append, if_pos ((hasPrior_eq_true_iff s aid).mp ht)]
    omega

/-- C2 witness: a store with one prior interaction on address 1: recording
for address 2 bumps `total_interactions` from 1 to 2, and contacted rises
by one exactly because address 2 had no prior interaction. -/
theorem record_then_stats_witness :
    storeOnePrior.interactions ≠ [] ∧
    ({ address_id := some 2 } : InteractionData).address_id = some 2 ∧
    (get_stats (save_interaction storeOnePrior
        { address_id := some 2 }).1).total_interactions =
      (get_stats storeOnePrior).total_interactions + 1 ∧
    ((get_stats (save_interaction storeOnePrior
        { address_id := some 2 }).1).total_addresses_contacted =
      (get_stats storeOnePrior).total_addresses_contacted + 1 ↔
        hasPrior storeOnePrior 2 = false) :=
  ⟨by decide, rfl,
   (record_then_stats storeOnePrior { address_id := some 2 } 2
      (by decide) rfl).1,
   (record_then_stats storeOnePrior { address_id := some 2 } 2
      (by decide) rfl).2.1⟩

/-- C4 counterexample: for the unknown (numeric) precinct id "1" on an
empty store, `load_precinct_addresses` does not return the empty sequence:
the demo generator returns 5 synthetic addresses. -/
theorem load_precinct_addresses_counterexample :
    load_precinct_addresses emptyStore "1" ≠ [] ∧
    (load_precinct_addresses emptyStore "1").length = 5 := by
  constructor
  · decide
  · decide

/-- C4 amended: `load_precinct_addresses` never fails, and when stored
rows exist for the precinct it returns exactly those rows ordered by
`(street_name, street_number)` ascending; but when no rows exist it falls
back to the demo generator: `min(50, int(id) * 5)` synthetic addresses for
a numeric id, and the empty sequence only when the id is not numeric (the
exception path). -/
theorem load_precinct_addresses_cases (s : Store) (pid : String) (n : Int) :
    (s.addresses.filter (fun a => decide (a.precinct_id = pid)) ≠ [] →
      (load_precinct_addresses s pid).Perm
        (s.addresses.filter (fun a => decide (a.precinct_id = pid))) ∧
      List.Sorted addrLe (load_precinct_addresses s pid)) ∧
    (s.addresses.filter (fun a => decide (a.precinct_id = pid)) = [] →
      (pyInt? pid = some n →
        load_precinct_addresses s pid =
          (List.range (min 50 (n * 5)).toNat).map (sampleAddress pid)) ∧
      (pyInt? pid = none → load_precinct_addresses s pid = [])) := by
  constructor
  · intro h
    have hl : 0 <
        (s.addresses.filter (fun a => decide (a.precinct_id = pid))).length :=
      List.length_pos.mpr h
    simp only [load_precinct_addresses, sortAddresses, if_pos hl]
    exact ⟨List.perm_insertionSort addrLe _, List.sorted_insertionSort addrLe _⟩
  · intro h
    have hl : ¬ 0 <
        (s.addresses.filter (fun a => decide (a.precinct_id = pid))).length := by
      simp [h]
    constructor
    · intro hp
      simp only [load_precinct_addresses, if_neg hl, hp]
    · intro hp
      simp only [load_precinct_addresses, if_neg hl, hp]

/-- C4 witness: precinct 9 with two stored addresses comes back as a
sorted permutation of the stored rows; the empty store with numeric id "0"
yields the (empty) generated range, and with non-numeric id "abc" yields
the empty list. -/
theorem load_precinct_addresses_cases_witness :
    storePrecinctNine.addresses.filter
      (fun a => decide (a.precinct_id = "9")) ≠ [] ∧
    (load_precinct_addresses storePrecinctNine "9").Perm
      (storePrecinctNine.addresses.filter
        (fun a => decide (a.precinct_id = "9"))) ∧
    List.Sorted addrLe (load_precinct_addresses storePrecinctNine "9") ∧
    emptyStore.addresses.filter (fun a => decide (a.precinct_id = "0")) = [] ∧
    pyInt? "0" = some 0 ∧
    load_precinct_addresses emptyStore "0" =
      (List.range (min 50 ((0 : Int) * 5)).toNat).map (sampleAddress "0") ∧
    pyInt? "abc" = none ∧
    load_precinct_addresses emptyStore "abc" = [] :=
  ⟨by decide,
   ((load_precinct_addresses_cases storePrecinctNine "9" 0).1 (by decide)).1,
   ((load_precinct_addresses_cases storePrecinctNine "9" 0).1 (by decide)).2,
   rfl, by decide,
   ((load_precinct_addresses_cases emptyStore "0" 0).2 rfl).1 (by decide),
   by decide,
   ((load_precinct_addresses_cases emptyStore "abc" 0).2 rfl).2 (by decide)⟩

/-- C9 counterexample: the "never reports zero coverage" consequence
fails: a store with 600001 real addresses and no interactions reports the
sample-substituted coverage round(2800/600001, 2) = 0. -/
theorem sample_fallback_zero_coverage_counterexample :
    storeHugeNoInteractions.addresses ≠ [] ∧
    storeHugeNoInteractions.interactions = [] ∧
    (get_stats storeHugeNoInteractions).coverage_percentage = 0 := by
  have hlen : storeHugeNoInteractions.addresses.length = 600001 := by
    rw [show storeHugeNoInteractions.addresses =
        List.replicate 600001 (fixtureAddress 1 "123" "A" 1) from rfl,
      List.length_replicate]
  obtain ⟨-, htac, hta, -, -⟩ :=
    get_stats_fallback_fields storeHugeNoInteractions rfl
  refine ⟨?_, rfl, ?_⟩
  · intro hnil
    rw [hnil] at hlen
    exact absurd hlen (by norm_num)
  rw [hlen] at hta
  rw [if_neg (by norm_num)] at hta
  rw [get_stats_coverage_eq, htac, hta]
  rw [if_pos (by norm_num)]
  unfold round2
  have hq : ((28 : ℕ) : ℚ) / ((600001 : ℕ) : ℚ) * 100 * 100 =
      280000 / 600001 := by
    push_cast
    ring
  rw [hq, round_eq]
  have hfl : ⌊(280000 : ℚ) / 600001 + 1 / 2⌋ = 0 := by
    rw [Int.floor_eq_iff] <;> norm_num
  rw [hfl]
  norm_num

/-- C9 amended: whenever the interactions table is empty, `get_stats`
discards the computed statistics for the hard-coded sample values
(totalInteractions 42, contacted 28, the fixed breakdown and precinct
coverage), keeping the real address count when nonzero; the resulting
coverage is nonzero for every store with between 1 and 560000 addresses
(beyond that, round(2800/total, 2) is 0). -/
theorem zero_interactions_sample_fallback (s : Store)
    (h : s.interactions = []) :
    (get_stats s).total_interactions = 42 ∧
    (get_stats s).total_addresses_contacted = 28 ∧
    (get_stats s).total_addresses =
      (if s.addresses.length = 0 then 100 else s.addresses.length) ∧
    (get_stats s).response_breakdown = sampleResponseBreakdown ∧
    (get_stats s).precinct_coverage = samplePrecinctCoverage ∧
    (s.addresses ≠ [] → s.addresses.length ≤ 560000 →
      0 < (get_stats s).coverage_percentage) := by
  have h0 : s.interactions.length = 0 := by
    rw [h]
    rfl
  obtain ⟨h1, h2, h3, h4, h5⟩ := get_stats_fallback_fields s h0
  refine ⟨h1, h2, h3, h4, h5, ?_⟩
  · intro hne hle
    have hlen : s.addresses.length ≠ 0 := fun hz =>
      hne (List.length_eq_zero.mp hz)
    have hta : (get_stats s).total_addresses = s.addresses.length := by
      rw [h3, if_neg hlen]
    rw [get_stats_coverage_eq, h2, hta, if_pos (Nat.pos_of_ne_zero hlen)]
    apply round2_pos
    have hn0 : (0 : ℚ) < (s.addresses.length : ℚ) := by
      exact_mod_cast Nat.pos_of_ne_zero hlen
    have hnle : ((s.addresses.length : ℚ)) ≤ 560000 := by exact_mod_cast hle
    have heq : ((28 : ℕ) : ℚ) / (s.addresses.length : ℚ) * 100 =
        2800 / (s.addresses.length : ℚ) := by
      push_cast
      ring
    rw [heq, div_le_div_iff₀ (by norm_num) hn0]
    linarith

/-- C9 witness: three real addresses and no interactions: stats report the
sample 42 interactions and 28 contacted, keep the real total of 3, and the
reported coverage is positive. -/
theorem zero_interactions_sample_fallback_witness :
    storeThreeAddrNoInteractions.interactions = [] ∧
    (get_stats storeThreeAddrNoInteractions).total_interactions = 42 ∧
    (get_stats storeThreeAddrNoInteractions).total_addresses_contacted = 28 ∧
    storeThreeAddrNoInteractions.addresses ≠ [] ∧
    storeThreeAddrNoInteractions.addresses.length ≤ 560000 ∧
    0 < (get_stats storeThreeAddrNoInteractions).coverage_percentage :=
  ⟨rfl, (zero_interactions_sample_fallback storeThreeAddrNoInteractions rfl).1,
   (zero_interactions_sample_fallback storeThreeAddrNoInteractions rfl).2.1,
   by decide, by decide,
   (zero_interactions_sample_fallback storeThreeAddrNoInteractions
      rfl).2.2.2.2.2 (by decide) (by decide)⟩

end Canvassing
